import Mathlib

/-!
Verification of the audio capture/visualization program (APP.PY).

The program reads fixed-size frames of raw PCM audio from a device stream,
writes each frame to a WAV file, converts it to a byte-level amplitude
series for plotting, and stops when the plot window is closed (detected as
a TclError raised by the canvas redraw).  This file gives a shallow
embedding of that program: external events (device open failure, the bytes
returned by each stream read or a read error, whether the redraw finds the
window closed, whether each teardown call raises) are supplied as explicit
script values, and the loop of `visualize_audio`, its teardown sequence,
the `__main__` driver loop and `select_device` become pure recursive
functions over those scripts.  Bytes are natural numbers below 256 and the
WAV file is modelled as its header fields plus the list of data bytes
appended after the header.
-/

/-- Per-run configuration of `visualize_audio`: samples per frame,
channel count, sample width in bytes (what `audio.get_sample_size` returns
for the chosen format; 2 for the default paInt16) and sample rate. -/
structure CaptureConfig where
  samples_per_frame : Nat
  num_channels : Nat
  sampwidth : Nat
  sample_rate : Nat
deriving Repr, DecidableEq

/-- Model of the open WAV file: the header fields set at open
(lines 76-79 of APP.PY) plus the bytes appended after the header by
`writeframes` and whether `close` has been called (which finalizes the
length fields of the header). -/
structure WavFile where
  nchannels : Nat
  sampwidth : Nat
  framerate : Nat
  data : List Nat
  closed : Bool
deriving Repr, DecidableEq

/-- The WAV file right after `wave.open` and the three header setters
(lines 76-79): header fields copied from the configuration, no data. -/
def initWav (cfg : CaptureConfig) : WavFile :=
  { nchannels := cfg.num_channels
    sampwidth := cfg.sampwidth
    framerate := cfg.sample_rate
    data := []
    closed := false }

/-- External events of one iteration of the `while True` loop:
`readResult` is the byte block returned by `stream.read` (`none` when the
read raises an OSError), and `drawClosed` is true when
`fig.canvas.draw()` raises TclError because the window was closed. -/
structure CycleInput where
  readResult : Option (List Nat)
  drawClosed : Bool
deriving Repr, DecidableEq

/-- Reinterpretation of one unsigned byte as a signed 8-bit value, the
effect of the `dtype` cast in `np.array(data_int, dtype=b)` on line 113. -/
def int8OfByte (b : Nat) : Int :=
  if b < 128 then (b : Int) else (b : Int) - 256

/-- Every second element of a list starting at offset 0, the effect of
the stride-2 slice on line 113. -/
def everySecond : List α → List α
  | [] => []
  | [a] => [a]
  | a :: _ :: rest => a :: everySecond rest

/-- The transcoding of lines 112-113 of APP.PY: `struct.unpack` of
exactly `2 * samples_per_frame` unsigned bytes (raising struct.error,
modelled as `none`, when the block has any other length), then the cast of
each byte to a signed 8-bit value, the stride-2 slice, and the bias of
128. -/
def to_series (samples_per_frame : Nat) (audio_data : List Nat) : Option (List Int) :=
  if audio_data.length = 2 * samples_per_frame then
    some ((everySecond (audio_data.map int8OfByte)).map (fun v => v + 128))
  else
    none

/-- How the `while True` loop of `visualize_audio` ends. -/
inductive Outcome where
  /-- TclError at the redraw: the frame-rate summary is printed, the loop
  breaks, the file and stream are closed and `True` is returned. -/
  | returnedTrue
  /-- `audio.open` raised OSError: caught, `False` returned. -/
  | returnedFalse
  /-- `stream.read` raised: no handler, the exception escapes
  `visualize_audio`. -/
  | crashedRead
  /-- `struct.unpack` raised struct.error: no handler, the exception
  escapes `visualize_audio`. -/
  | crashedUnpack
  /-- The event script ran out while the loop was still iterating. -/
  | stillRunning
deriving Repr, DecidableEq

/-- State visible after the loop of `visualize_audio` stops (or after its
script runs out): the WAV file, the value of `frame_count`, whether the
average frame-rate summary was printed, whether `stream.stop_stream` and
`stream.close` ran, whether `audio.terminate` ran, and how it ended. -/
structure LoopResult where
  wav : WavFile
  frame_count : Nat
  printedFrameRate : Bool
  streamClosed : Bool
  audioTerminated : Bool
  outcome : Outcome
deriving Repr, DecidableEq

/-- The `while True` loop of lines 104-138 of APP.PY, one recursive call
per iteration, driven by the script of external events.  Each iteration:
`stream.read` (a `none` result is an uncaught OSError), `writeframes`
(append the raw bytes to the file), the unpack/cast/bias transcoding (a
`none` result is an uncaught struct.error), the redraw (TclError prints
the frame rate and breaks out to the teardown of lines 131-136, which
closes the WAV file, stops and closes the stream, terminates the audio
instance and returns True), otherwise `frame_count` is incremented and
the loop repeats. -/
def runLoop (samples_per_frame : Nat) :
    List CycleInput → WavFile → Nat → LoopResult
  | [], wav, k =>
      { wav := wav, frame_count := k, printedFrameRate := false
        streamClosed := false, audioTerminated := false
        outcome := .stillRunning }
  | c :: rest, wav, k =>
      match c.readResult with
      | none =>
          { wav := wav, frame_count := k, printedFrameRate := false
            streamClosed := false, audioTerminated := false
            outcome := .crashedRead }
      | some audio_data =>
          let wav1 : WavFile := { wav with data := wav.data ++ audio_data }
          match to_series samples_per_frame audio_data with
          | none =>
              { wav := wav1, frame_count := k, printedFrameRate := false
                streamClosed := false, audioTerminated := false
                outcome := .crashedUnpack }
          | some _ =>
              if c.drawClosed then
                { wav := { wav1 with closed := true }, frame_count := k
                  printedFrameRate := true, streamClosed := true
                  audioTerminated := true, outcome := .returnedTrue }
              else
                runLoop samples_per_frame rest wav1 (k + 1)

/-- External events of one call of `visualize_audio`: whether
`audio.open` raises OSError (an invalid or unsupported device index), and
the per-iteration events of the loop. -/
structure RunInput where
  openFails : Bool
  cycles : List CycleInput
deriving Repr, DecidableEq

/-- Observable result of one call of `visualize_audio`: the returned
value (`none` when an exception escaped or the script ran out), the WAV
file (`none` when `wave.open` was never reached), whether the stream was
ever opened and later closed, whether `audio.terminate` ran, the final
`frame_count`, whether the frame-rate summary was printed, and the
outcome. -/
structure RunResult where
  returned : Option Bool
  wav : Option WavFile
  streamOpened : Bool
  streamClosed : Bool
  audioTerminated : Bool
  frame_count : Nat
  printedFrameRate : Bool
  outcome : Outcome
deriving Repr, DecidableEq

/-- The body of `visualize_audio` (lines 42-138 of APP.PY).  When
`audio.open` raises OSError the handler on lines 71-73 prints a message
and returns False before the WAV file is opened, so no file and no stream
exist.  Otherwise the WAV file is opened with header fields from the
configuration and the loop runs over the cycle script. -/
def runCapture (cfg : CaptureConfig) (inp : RunInput) : RunResult :=
  if inp.openFails then
    { returned := some false, wav := none, streamOpened := false
      streamClosed := false, audioTerminated := false, frame_count := 0
      printedFrameRate := false, outcome := .returnedFalse }
  else
    let r := runLoop cfg.samples_per_frame inp.cycles (initWav cfg) 0
    { returned := match r.outcome with
        | .returnedTrue => some true
        | _ => none
      wav := some r.wav
      streamOpened := true
      streamClosed := r.streamClosed
      audioTerminated := r.audioTerminated
      frame_count := r.frame_count
      printedFrameRate := r.printedFrameRate
      outcome := r.outcome }

/-- Script of N successful reads whose last redraw finds the window
closed: every read returns its frame, every redraw but the last succeeds,
and the last raises TclError.  This is the normal-termination run that
persists exactly the scripted frames. -/
def goodScript : List (List Nat) → List CycleInput
  | [] => []
  | [f] => [{ readResult := some f, drawClosed := true }]
  | f :: g :: rest =>
      { readResult := some f, drawClosed := false } :: goodScript (g :: rest)

/-- Script of successful reads of the given frames followed by one read
that raises OSError: a device read failure after the scripted frames. -/
def failScript : List (List Nat) → List CycleInput
  | [] => [{ readResult := none, drawClosed := false }]
  | f :: rest =>
      { readResult := some f, drawClosed := false } :: failScript rest

/-- Which of the four teardown calls of lines 131-136 raise when
invoked. -/
structure TeardownInput where
  wavCloseFails : Bool
  stopStreamFails : Bool
  streamCloseFails : Bool
  terminateFails : Bool
deriving Repr, DecidableEq

/-- Which teardown calls were actually attempted, whether `plt.close`
was ever called on the figure, and whether an exception escaped. -/
structure TeardownResult where
  wavCloseAttempted : Bool
  stopAttempted : Bool
  streamCloseAttempted : Bool
  terminateAttempted : Bool
  rendererCloseAttempted : Bool
  raised : Bool
deriving Repr, DecidableEq

/-- The teardown sequence of lines 131-136 of APP.PY under the
possibility that each call raises: `wav_file.close()`,
`stream.stop_stream()`, `stream.close()`, `audio.terminate()` run in that
order with no handler between them, so a call that raises skips every
later call; `plt.close` is never invoked on the figure. -/
def teardown (i : TeardownInput) : TeardownResult :=
  if i.wavCloseFails then
    { wavCloseAttempted := true, stopAttempted := false
      streamCloseAttempted := false, terminateAttempted := false
      rendererCloseAttempted := false, raised := true }
  else if i.stopStreamFails then
    { wavCloseAttempted := true, stopAttempted := true
      streamCloseAttempted := false, terminateAttempted := false
      rendererCloseAttempted := false, raised := true }
  else if i.streamCloseFails then
    { wavCloseAttempted := true, stopAttempted := true
      streamCloseAttempted := true, terminateAttempted := false
      rendererCloseAttempted := false, raised := true }
  else if i.terminateFails then
    { wavCloseAttempted := true, stopAttempted := true
      streamCloseAttempted := true, terminateAttempted := true
      rendererCloseAttempted := false, raised := true }
  else
    { wavCloseAttempted := true, stopAttempted := true
      streamCloseAttempted := true, terminateAttempted := true
      rendererCloseAttempted := false, raised := false }

/-- How the `while True` driver loop of lines 184-189 ends. -/
inductive DriverOutcome where
  /-- A run returned True: `break`, the process exits normally. -/
  | exitedNormally
  /-- A run let an exception escape: the process crashes. -/
  | crashed
  /-- The script of runs ran out with the driver still looping. -/
  | stillLooping
deriving Repr, DecidableEq

/-- Observable result of the driver loop: how it ended, how many times
`select_device` was re-invoked after a failed run, and whether the run
that ended the loop had printed the frame-rate summary. -/
structure DriverResult where
  outcome : DriverOutcome
  selections : Nat
  lastPrintedFrameRate : Bool
deriving Repr, DecidableEq

/-- The flat driver loop of lines 184-189 of APP.PY: run
`visualize_audio` once; on a False result call `select_device` for a new
index and loop again; on a True result break out and exit; an exception
escaping the run crashes the process.  The script supplies the external
events of each successive run. -/
def runsDriver (cfg : CaptureConfig) : List RunInput → DriverResult
  | [] => { outcome := .stillLooping, selections := 0, lastPrintedFrameRate := false }
  | r :: rest =>
      let res := runCapture cfg r
      match res.returned with
      | some true =>
          { outcome := .exitedNormally, selections := 0
            lastPrintedFrameRate := res.printedFrameRate }
      | some false =>
          let d := runsDriver cfg rest
          { outcome := d.outcome, selections := d.selections + 1
            lastPrintedFrameRate := d.lastPrintedFrameRate }
      | none =>
          { outcome := .crashed, selections := 0, lastPrintedFrameRate := false }

/-- The validation of lines 16-28 of APP.PY: the index is valid when it
is neither negative nor at least the device count of host API 0. -/
def validate_device (device_index : Int) (num_devices : Nat) : Bool :=
  if device_index < 0 ∨ device_index ≥ (num_devices : Int) then false else true

/-- One line typed at the `select_device` prompt: either text that
`int()` rejects with ValueError, or an integer. -/
inductive UserInput where
  | notInt
  | int (i : Int)
deriving Repr, DecidableEq

/-- The prompt loop of `select_device` (lines 140-158 of APP.PY), driven
by the script of typed lines: a ValueError from `int()` is caught and the
loop re-prompts; a valid integer is returned; an invalid integer prints a
message and the loop re-prompts.  `none` means the script ran out with
the loop still prompting. -/
def select_device (num_devices : Nat) : List UserInput → Option Int
  | [] => none
  | .notInt :: rest => select_device num_devices rest
  | .int i :: rest =>
      if validate_device i num_devices then some i
      else select_device num_devices rest

/-- Modelled external behavior of `stream.read(samples_per_frame)`: the
returned block holds samples_per_frame sample groups of num_channels
samples of sampwidth bytes each, so its length is the product of the
three (PortAudio fills the block with silence or real input; the byte
values are irrelevant here, only the length matters). -/
def deviceFrame (cfg : CaptureConfig) : List Nat :=
  List.replicate (cfg.samples_per_frame * cfg.num_channels * cfg.sampwidth) 0

/-- Reference transcoding written from the words of the specification:
take every second byte of the frame starting at offset 0, reinterpret
each such byte as a signed 8-bit value, and add a bias of 128. -/
def spec_signed8 (b : Nat) : Int :=
  if b < 128 then (b : Int) else (b : Int) - 256

/-- Reference amplitude series from the words of the specification,
applied byte-first: stride-2 selection, then per-byte signed
reinterpretation plus bias. -/
def spec_to_series (frame : List Nat) : List Int :=
  (everySecond frame).map (fun b => spec_signed8 b + 128)

lemma everySecond_map (g : α → β) : ∀ l : List α,
    everySecond (l.map g) = (everySecond l).map g
  | [] => rfl
  | [_] => rfl
  | a :: b :: rest => by
      simp [everySecond, everySecond_map g rest]

lemma length_everySecond : ∀ l : List α,
    (everySecond l).length = (l.length + 1) / 2
  | [] => by simp [everySecond]
  | [_] => by simp [everySecond]
  | a :: b :: rest => by
      simp [everySecond, length_everySecond rest]
      omega

lemma mem_everySecond {x : α} : ∀ {l : List α}, x ∈ everySecond l → x ∈ l
  | [], h => by simp [everySecond] at h
  | [_], h => by simpa [everySecond] using h
  | a :: b :: rest, h => by
      simp only [everySecond, List.mem_cons] at h ⊢
      rcases h with h | h
      · exact Or.inl h
      · exact Or.inr (Or.inr (mem_everySecond h))

lemma runLoop_goodScript (n : Nat) : ∀ fs : List (List Nat), fs ≠ [] →
    (∀ f ∈ fs, f.length = 2 * n) → ∀ (wav : WavFile) (k : Nat),
    runLoop n (goodScript fs) wav k =
      { wav := { wav with data := wav.data ++ fs.flatten, closed := true }
        frame_count := k + (fs.length - 1), printedFrameRate := true
        streamClosed := true, audioTerminated := true
        outcome := .returnedTrue }
  | [], hne, _, _, _ => absurd rfl hne
  | [f], _, hlen, wav, k => by
      have hf : f.length = 2 * n := hlen f (by simp)
      simp [goodScript, runLoop, to_series, hf]
  | f :: g :: rest, _, hlen, wav, k => by
      have hf : f.length = 2 * n := hlen f (by simp)
      have hrest : ∀ x ∈ g :: rest, x.length = 2 * n := by
        intro x hx
        exact hlen x (List.mem_cons_of_mem f hx)
      have ih := runLoop_goodScript n (g :: rest) (by simp) hrest
        { wav with data := wav.data ++ f } (k + 1)
      simp only [goodScript, runLoop, to_series, hf, if_pos]
      rw [ih]
      simp [List.append_assoc]
      omega

lemma runLoop_printed_of_returnedTrue (n : Nat) :
    ∀ (cs : List CycleInput) (wav : WavFile) (k : Nat),
    (runLoop n cs wav k).outcome = .returnedTrue →
    (runLoop n cs wav k).printedFrameRate = true
  | [], wav, k, h => by simp [runLoop] at h
  | c :: rest, wav, k, h => by
      match hr : c.readResult with
      | none => simp [runLoop, hr] at h
      | some audio_data =>
        match ht : to_series n audio_data with
        | none => simp [runLoop, hr, ht] at h
        | some s =>
          by_cases hd : c.drawClosed
          · simp [runLoop, hr, ht, hd]
          · simp only [runLoop, hr, ht, hd, if_neg, Bool.false_eq_true,
              ite_false] at h ⊢
            exact runLoop_printed_of_returnedTrue n rest _ _ h

/-- Claim C1: for every run and every sequence of N frames successfully
read from the audio stream, the persisted output file contains, after its
header, exactly the byte-for-byte concatenation of those N raw frames in
the order they were read; no frame that reached the writer is reordered
or dropped before the file is finalized. -/
theorem c1_writer_preserves_frames (cfg : CaptureConfig) (fs : List (List Nat))
    (hne : fs ≠ []) (hlen : ∀ f ∈ fs, f.length = 2 * cfg.samples_per_frame) :
    (runCapture cfg { openFails := false, cycles := goodScript fs }).wav =
      some { nchannels := cfg.num_channels, sampwidth := cfg.sampwidth
             framerate := cfg.sample_rate, data := fs.flatten
             closed := true } := by
  have h := runLoop_goodScript cfg.samples_per_frame fs hne hlen (initWav cfg) 0
  simp only [runCapture, h]
  simp [initWav]

/-- Concrete instance of C1: two frames of two bytes each end up
concatenated in order after the header, and the file is finalized. -/
theorem c1_writer_preserves_frames_witness :
    (runCapture ⟨1, 1, 2, 8000⟩
        { openFails := false, cycles := goodScript [[1, 2], [3, 4]] }).wav =
      some { nchannels := 1, sampwidth := 2, framerate := 8000
             data := [1, 2, 3, 4], closed := true } := by
  have h := c1_writer_preserves_frames ⟨1, 1, 2, 8000⟩ [[1, 2], [3, 4]]
    (by simp) (by decide)
  simpa using h

/-- Claim C2: on every raw frame of the default 16-bit format (length
2 x samples_per_frame bytes), the transcoding of lines 112-113 equals the
reference function written from the words of the specification: take
every second byte starting at offset 0, reinterpret it as a signed 8-bit
value, and add a bias of 128. -/
theorem c2_transcoder_matches_spec (n : Nat) (frame : List Nat)
    (hlen : frame.length = 2 * n) :
    to_series n frame = some (spec_to_series frame) := by
  simp only [to_series, hlen, if_pos, spec_to_series, everySecond_map,
    List.map_map]
  rfl

/-- Concrete instance of C2: on the frame [130, 7] with frame size 1, the
code transcoding and the spec reference agree, both selecting byte 130
and mapping it to signed -126 plus 128, that is 2. -/
theorem c2_transcoder_matches_spec_witness :
    to_series 1 [130, 7] = some (spec_to_series [130, 7]) ∧
    to_series 1 [130, 7] = some [2] := by
  have h := c2_transcoder_matches_spec 1 [130, 7] (by decide)
  exact ⟨h, by decide⟩

/-- Claim C5: the transcoding is deterministic and pure (same frame, same
series), its output length equals the configured frame size, and every
output value lies in [0, 255] for the default signed-8-bit-biased
format. -/
theorem c5_transcoder_deterministic_bounded (n : Nat) (frame : List Nat)
    (hlen : frame.length = 2 * n) (hbytes : ∀ b ∈ frame, b < 256) :
    to_series n frame = to_series n frame ∧
    ∃ s, to_series n frame = some s ∧ s.length = n ∧
      ∀ v ∈ s, 0 ≤ v ∧ v ≤ 255 := by
  refine ⟨rfl, (everySecond (frame.map int8OfByte)).map (fun v => v + 128),
    by simp [to_series, hlen], ?_, ?_⟩
  · simp [length_everySecond, hlen]
    omega
  · intro v hv
    simp only [List.mem_map] at hv
    obtain ⟨w, hw, hvw⟩ := hv
    have hw2 : w ∈ frame.map int8OfByte := mem_everySecond hw
    simp only [List.mem_map] at hw2
    obtain ⟨b, hb, hwb⟩ := hw2
    have hb256 : b < 256 := hbytes b hb
    subst hvw hwb
    by_cases h128 : b < 128 <;> simp [int8OfByte, h128] <;> omega

/-- Concrete instance of C5: the frame [0, 1, 200, 3] with frame size 2
transcodes to a series of length 2 with every value in [0, 255]. -/
theorem c5_transcoder_deterministic_bounded_witness :
    ∃ s, to_series 2 [0, 1, 200, 3] = some s ∧ s.length = 2 ∧
      ∀ v ∈ s, 0 ≤ v ∧ v ≤ 255 :=
  (c5_transcoder_deterministic_bounded 2 [0, 1, 200, 3]
    (by decide) (by decide)).2

/-- Claim C3 as stated is false: closing the display surface before any
cycle completes (K = 0, frame_count stays 0) still leaves one full frame
in the finalized file, because the frame of the detection iteration is
written on line 109 before the redraw on line 120 raises TclError.  The
file is not header-only as the claim requires for K = 0. -/
theorem c3_closure_counterexample :
    (runCapture ⟨1, 1, 2, 8000⟩
        { openFails := false
          cycles := [{ readResult := some [5, 6], drawClosed := true }] }).frame_count
        = 0 ∧
    (runCapture ⟨1, 1, 2, 8000⟩
        { openFails := false
          cycles := [{ readResult := some [5, 6], drawClosed := true }] }).wav
        = some { nchannels := 1, sampwidth := 2, framerate := 8000
                 data := [5, 6], closed := true } := by
  constructor <;> rfl

/-- Claim C3 amended: when the surface is found closed at the redraw of
iteration K+1 (after K completed cycles), the loop stops in that
iteration with frame_count = K, returns True, and the finalized file
carries a header matching the configured channel count, sample width and
rate followed by K+1 frames: the K completed ones plus the frame read and
written in the detection iteration itself. -/
theorem c3_closure_detection (cfg : CaptureConfig) (fs : List (List Nat))
    (K : Nat) (hK : fs.length = K + 1)
    (hlen : ∀ f ∈ fs, f.length = 2 * cfg.samples_per_frame) :
    (runCapture cfg { openFails := false, cycles := goodScript fs }).frame_count
      = K ∧
    (runCapture cfg { openFails := false, cycles := goodScript fs }).wav
      = some { nchannels := cfg.num_channels, sampwidth := cfg.sampwidth
               framerate := cfg.sample_rate, data := fs.flatten
               closed := true } ∧
    (runCapture cfg { openFails := false, cycles := goodScript fs }).returned
      = some true := by
  have hne : fs ≠ [] := by
    intro hemp
    rw [hemp] at hK
    simp at hK
  have h := runLoop_goodScript cfg.samples_per_frame fs hne hlen (initWav cfg) 0
  refine ⟨?_, ?_, ?_⟩ <;> simp only [runCapture, h] <;> simp [initWav, hK]

/-- Concrete instance of the amended C3: surface closed in the iteration
after one completed cycle (K = 1) gives frame_count 1 and a finalized
file holding two frames. -/
theorem c3_closure_detection_witness :
    (runCapture ⟨1, 1, 2, 8000⟩
        { openFails := false, cycles := goodScript [[1, 2], [3, 4]] }).frame_count
      = 1 ∧
    (runCapture ⟨1, 1, 2, 8000⟩
        { openFails := false, cycles := goodScript [[1, 2], [3, 4]] }).returned
      = some true := by
  have h := c3_closure_detection ⟨1, 1, 2, 8000⟩ [[1, 2], [3, 4]] 1
    (by decide) (by decide)
  exact ⟨h.1, h.2.2⟩

/-- Claim C4 is a code bug: when `stream.read` raises at cycle K (here
K = 2, after one successful cycle), `visualize_audio` has no handler and
no finally block, so the exception escapes (no Bool is returned), the WAV
file still holds the K-1 previously written frames but is never closed,
so its header length fields are never finalized, the stream is never
stopped or closed, and the exception propagates through the driver loop
of lines 184-189, crashing the process, instead of ending the run in a
Failed result as the claim states.  Only the clause that the failing
read's frame is never written holds. -/
theorem c4_read_failure_crashes :
    (runCapture ⟨1, 1, 2, 8000⟩
        { openFails := false, cycles := failScript [[1, 2]] }).outcome
      = .crashedRead ∧
    (runCapture ⟨1, 1, 2, 8000⟩
        { openFails := false, cycles := failScript [[1, 2]] }).returned
      = none ∧
    (runCapture ⟨1, 1, 2, 8000⟩
        { openFails := false, cycles := failScript [[1, 2]] }).wav
      = some { nchannels := 1, sampwidth := 2, framerate := 8000
               data := [1, 2], closed := false } ∧
    (runCapture ⟨1, 1, 2, 8000⟩
        { openFails := false, cycles := failScript [[1, 2]] }).streamClosed
      = false ∧
    (runsDriver ⟨1, 1, 2, 8000⟩
        [{ openFails := false, cycles := failScript [[1, 2]] }]).outcome
      = .crashed := by
  refine ⟨rfl, rfl, rfl, rfl, rfl⟩

/-- Claim C6: when opening the audio stream fails (invalid or unsupported
device index raising OSError on line 62), the run returns the failure
result False instead of crashing, and since the WAV file is only opened
on line 76 after a successful stream open, no file and no stream resource
is ever opened, hence none is left open. -/
theorem c6_invalid_device_open (cfg : CaptureConfig) (cycles : List CycleInput) :
    (runCapture cfg { openFails := true, cycles := cycles }).returned
      = some false ∧
    (runCapture cfg { openFails := true, cycles := cycles }).wav = none ∧
    (runCapture cfg { openFails := true, cycles := cycles }).streamOpened
      = false ∧
    (runCapture cfg { openFails := true, cycles := cycles }).outcome
      = .returnedFalse := by
  refine ⟨rfl, rfl, rfl, rfl⟩

/-- Claim C7 as stated is false: the teardown of lines 131-136 never
closes the Waveform Renderer (no plt.close call exists), and it is
short-circuited, not best-effort: when `wav_file.close()` raises, the
stream close and the audio terminate calls are never attempted. -/
theorem c7_teardown_counterexample :
    (teardown { wavCloseFails := false, stopStreamFails := false
                streamCloseFails := false, terminateFails := false }).rendererCloseAttempted
      = false ∧
    (teardown { wavCloseFails := true, stopStreamFails := false
                streamCloseFails := false, terminateFails := false }).streamCloseAttempted
      = false ∧
    (teardown { wavCloseFails := true, stopStreamFails := false
                streamCloseFails := false, terminateFails := false }).terminateAttempted
      = false := by
  refine ⟨rfl, rfl, rfl⟩

/-- Claim C7 amended: on normal termination the code closes the WAV
file, then stops the stream, then closes the stream, then terminates the
audio instance, strictly in that order with no exception handling between
them, so a close that raises skips every later close (teardown is
short-circuited, not best-effort), and the renderer figure is never
explicitly closed on any path. -/
theorem c7_teardown_short_circuits (i : TeardownInput) :
    (teardown i).wavCloseAttempted = true ∧
    (teardown i).rendererCloseAttempted = false ∧
    (i.wavCloseFails = true →
      (teardown i).stopAttempted = false ∧
      (teardown i).streamCloseAttempted = false ∧
      (teardown i).terminateAttempted = false ∧
      (teardown i).raised = true) ∧
    (i.wavCloseFails = false → (teardown i).stopAttempted = true) ∧
    (i.wavCloseFails = false ∧ i.stopStreamFails = false →
      (teardown i).streamCloseAttempted = true) ∧
    (i.wavCloseFails = false ∧ i.stopStreamFails = false ∧
        i.streamCloseFails = false →
      (teardown i).terminateAttempted = true ∧
      (teardown i).raised = i.terminateFails) := by
  obtain ⟨w, s, c, t⟩ := i
  cases w <;> cases s <;> cases c <;> cases t <;> simp [teardown]

/-- Concrete instance of the amended C7: a failing WAV close skips the
stream close, while a failure-free teardown reaches the terminate
call. -/
theorem c7_teardown_short_circuits_witness :
    (teardown { wavCloseFails := true, stopStreamFails := false
                streamCloseFails := false, terminateFails := false }).streamCloseAttempted
      = false ∧
    (teardown { wavCloseFails := false, stopStreamFails := false
                streamCloseFails := false, terminateFails := false }).terminateAttempted
      = true :=
  ⟨((c7_teardown_short_circuits
      { wavCloseFails := true, stopStreamFails := false
        streamCloseFails := false, terminateFails := false }).2.2.1 rfl).2.1,
   ((c7_teardown_short_circuits
      { wavCloseFails := false, stopStreamFails := false
        streamCloseFails := false, terminateFails := false }).2.2.2.2.2
      ⟨rfl, rfl, rfl⟩).1⟩

lemma runCapture_printed_of_returned_true (cfg : CaptureConfig)
    (inp : RunInput) (h : (runCapture cfg inp).returned = some true) :
    (runCapture cfg inp).printedFrameRate = true := by
  cases ho : inp.openFails with
  | true => simp [runCapture, ho] at h
  | false =>
      simp only [runCapture, ho, Bool.false_eq_true, if_false] at h ⊢
      cases hoc : (runLoop cfg.samples_per_frame inp.cycles (initWav cfg) 0).outcome <;>
        simp only [hoc] at h ⊢
      case returnedTrue =>
        exact runLoop_printed_of_returnedTrue cfg.samples_per_frame
          inp.cycles (initWav cfg) 0 hoc
      all_goals simp at h

/-- Claim C8: the top-level driver of lines 184-189 is a flat loop over
runs: after every run that returns the failure result False it invokes
`select_device` once for a new index and starts a fresh run, for
arbitrarily many failed runs, and the process exits normally exactly when
a run returns True, that run having printed the average frame-rate
summary on its TclError path before returning. -/
theorem c8_driver_flat_loop (cfg : CaptureConfig) (pre : List RunInput)
    (lastRun : RunInput)
    (hpre : ∀ r ∈ pre, (runCapture cfg r).returned = some false)
    (hlast : (runCapture cfg lastRun).returned = some true) :
    runsDriver cfg (pre ++ [lastRun]) =
      { outcome := .exitedNormally, selections := pre.length
        lastPrintedFrameRate := true } := by
  induction pre with
  | nil =>
      simp only [List.nil_append, runsDriver, hlast]
      simp [runCapture_printed_of_returned_true cfg lastRun hlast]
  | cons r rest ih =>
      have hr := hpre r (by simp)
      have hrest : ∀ x ∈ rest, (runCapture cfg x).returned = some false := by
        intro x hx
        exact hpre x (List.mem_cons_of_mem r hx)
      simp only [List.cons_append, runsDriver, hr, ih hrest]
      simp [ih hrest]

/-- Concrete instance of C8: one run failing at open, then a run closed
normally after one frame, gives a normal exit with one re-selection and
the frame-rate summary printed. -/
theorem c8_driver_flat_loop_witness :
    runsDriver ⟨1, 1, 2, 8000⟩
        [{ openFails := true, cycles := [] },
         { openFails := false, cycles := goodScript [[1, 2]] }] =
      { outcome := .exitedNormally, selections := 1
        lastPrintedFrameRate := true } := by
  have h := c8_driver_flat_loop ⟨1, 1, 2, 8000⟩
    [{ openFails := true, cycles := [] }]
    { openFails := false, cycles := goodScript [[1, 2]] }
    (by decide) (by decide)
  simpa using h

/-- Claim C9 as stated is false: with samples_per_frame = 4, two
channels and one-byte samples (paInt8), the channel count differs from 1,
yet the device block holds 4 x 2 x 1 = 8 = 2 x 4 bytes, exactly what the
unpack on line 112 expects, so the unpack of the first frame succeeds,
an amplitude series is produced, and the first cycle completes without
failing. -/
theorem c9_unpack_counterexample :
    (CaptureConfig.mk 4 2 1 8000).num_channels ≠ 1 ∧
    (to_series 4 (deviceFrame ⟨4, 2, 1, 8000⟩)).isSome = true ∧
    (runCapture ⟨4, 2, 1, 8000⟩
        { openFails := false
          cycles := [{ readResult := some (deviceFrame ⟨4, 2, 1, 8000⟩)
                       drawClosed := false }] }).outcome = .stillRunning ∧
    (runCapture ⟨4, 2, 1, 8000⟩
        { openFails := false
          cycles := [{ readResult := some (deviceFrame ⟨4, 2, 1, 8000⟩)
                       drawClosed := false }] }).frame_count = 1 := by
  refine ⟨by decide, rfl, rfl, rfl⟩

/-- Claim C9 amended: the unpack on line 112 expects exactly
2 x samples_per_frame bytes while a device block holds
samples_per_frame x num_channels x sampwidth bytes, so for every
configuration whose num_channels x sampwidth differs from 2 (and a
positive frame size) the byte-unpack of the first frame raises
struct.error and the run crashes in its first cycle; configurations with
num_channels x sampwidth = 2 (including 2 channels of 1-byte samples)
pass the unpack even though they are not mono 16-bit. -/
theorem c9_unpack_needs_two_bytes_per_group (cfg : CaptureConfig)
    (rest : List CycleInput) (d : Bool)
    (hn : 0 < cfg.samples_per_frame)
    (h : cfg.num_channels * cfg.sampwidth ≠ 2) :
    (runCapture cfg
        { openFails := false
          cycles := { readResult := some (deviceFrame cfg)
                      drawClosed := d } :: rest }).outcome = .crashedUnpack ∧
    (runCapture cfg
        { openFails := false
          cycles := { readResult := some (deviceFrame cfg)
                      drawClosed := d } :: rest }).returned = none := by
  have hlen : (deviceFrame cfg).length ≠ 2 * cfg.samples_per_frame := by
    simp only [deviceFrame, List.length_replicate]
    rw [Nat.mul_assoc]
    intro hEq
    exact h (Nat.eq_of_mul_eq_mul_left hn
      (hEq.trans (Nat.mul_comm 2 cfg.samples_per_frame)))
  have ht : to_series cfg.samples_per_frame (deviceFrame cfg) = none := by
    simp [to_series, hlen]
  constructor <;> simp [runCapture, runLoop, ht]

/-- Concrete instance of the amended C9: stereo 16-bit (two channels,
two-byte samples) makes the first cycle crash in the unpack. -/
theorem c9_unpack_needs_two_bytes_per_group_witness :
    (runCapture ⟨1, 2, 2, 8000⟩
        { openFails := false
          cycles := [{ readResult := some (deviceFrame ⟨1, 2, 2, 8000⟩)
                       drawClosed := false }] }).outcome = .crashedUnpack ∧
    (runCapture ⟨1, 2, 2, 8000⟩
        { openFails := false
          cycles := [{ readResult := some (deviceFrame ⟨1, 2, 2, 8000⟩)
                       drawClosed := false }] }).returned = none :=
  c9_unpack_needs_two_bytes_per_group ⟨1, 2, 2, 8000⟩ [] false
    (by decide) (by decide)

/-- Claim C10: every index `select_device` returns satisfies the
validation predicate of lines 16-28 (non-negative and below the device
count), and a line that `int()` rejects is caught and answered with a
re-prompt (prepending it does not change the returned index), so the
routine never terminates with an invalid index. -/
theorem c10_select_device_validated (num_devices : Nat)
    (script : List UserInput) (i : Int)
    (h : select_device num_devices script = some i) :
    0 ≤ i ∧ i < (num_devices : Int) ∧
    validate_device i num_devices = true ∧
    select_device num_devices (.notInt :: script) = some i := by
  have hv : validate_device i num_devices = true := by
    induction script with
    | nil => simp [select_device] at h
    | cons u rest ih =>
        cases u with
        | notInt =>
            simp only [select_device] at h
            exact ih h
        | int j =>
            simp only [select_device] at h
            cases hval : validate_device j num_devices with
            | true =>
                rw [hval] at h
                simp only [if_true] at h
                obtain rfl : j = i := by
                  injection h
                exact hval
            | false =>
                rw [hval] at h
                simp only [Bool.false_eq_true, if_false] at h
                exact ih h
  have hb : 0 ≤ i ∧ i < (num_devices : Int) := by
    by_contra hcon
    have hor : i < 0 ∨ i ≥ (num_devices : Int) := by omega
    simp [validate_device, hor] at hv
  refine ⟨hb.1, hb.2, hv, ?_⟩
  simpa only [select_device] using h

/-- Concrete instance of C10: with 3 devices and the typed lines
"abc", 5, 2, the prompt loop skips the non-integer line and the
out-of-range 5 and returns 2, which the validator accepts. -/
theorem c10_select_device_validated_witness :
    0 ≤ (2 : Int) ∧ (2 : Int) < ((3 : Nat) : Int) ∧
    validate_device 2 3 = true ∧
    select_device 3 (.notInt :: [UserInput.int 5, UserInput.int 2]) = some 2 :=
  c10_select_device_validated 3 [UserInput.int 5, UserInput.int 2] 2
    (by decide)
